import Mathlib

/-!
Shallow embedding of the AI Payment Concierge multi-agent system
(src/agent.py) and verification of its specification claims.

Modelling conventions:
- Python floats are modelled as exact rationals (ℚ).
- Python `round` (banker's rounding, round-half-to-even) is `pyRound`.
- Calls to the external LLM endpoint are modelled by an oracle value
  (`AgentLLM`): the call either raises, or returns text containing no
  parseable JSON object, or returns text whose embedded JSON object
  parses; a parsed object is projected to the three fields the code
  reads (`status`, `analysis`, `score`), each optional.
- The flat JSON file store is modelled by an explicit state record
  (`DataStoreState`) threaded through the operations; a load returns
  the read value together with the unchanged state, a save returns the
  updated state.
- Python string formatting of numbers (`:.1%`, `:,.2f`, ...) is
  rendered as an exact `num/den` string by `ratStr`; no claim inspects
  the rendered digits.
- `datetime.now()` is passed in explicitly (an ISO timestamp string and
  a current-year number); the year of a stored ISO timestamp is read
  from its first four characters.
- Python raising (the anomaly agent's prompt interpolation divides by
  the category average and maximum before the try block) is modelled
  with `Except Unit`.
-/

/-- Python `round(x)`: round half to even (banker's rounding). -/
def pyRound (x : ℚ) : ℤ :=
  if x - ⌊x⌋ < 1/2 then ⌊x⌋
  else if 1/2 < x - ⌊x⌋ then ⌊x⌋ + 1
  else if ⌊x⌋ % 2 = 0 then ⌊x⌋ else ⌊x⌋ + 1

/-- Python `round(x, 2)`: round to two decimal places, half to even. -/
def pyRound2 (x : ℚ) : ℚ := (pyRound (x * 100) : ℚ) / 100

/-- Rendering of a rational inside an f-string (formatting abstracted). -/
def ratStr (q : ℚ) : String := toString q.num ++ "/" ++ toString q.den

/-- Python str.lower(), on the character list (the categories are ASCII). -/
def strLower (s : String) : String := String.mk (s.data.map Char.toLower)

/-- Python slicing s[:n], on the character list. -/
def strTake (s : String) (n : Nat) : String := String.mk (s.data.take n)

/-- Digit-string parsing, on the character list. -/
def strToNat? (s : String) : Option Nat :=
  if !s.data.isEmpty && s.data.all (·.isDigit) then
    some (s.data.foldl (fun n c => n * 10 + (c.toNat - Char.toNat '0')) 0)
  else none

/-- The common result record produced by the three scoring agents.
Fields are optional because a JSON object parsed out of the LLM response
is returned as-is and may lack any of them. -/
structure AgentResult where
  status : Option String
  analysis : Option String
  score : Option ℚ
deriving DecidableEq

/-- Outcome of one scoring agent's LLM call, as observed by the code:
the call raises, or succeeds with text containing no JSON object match,
or succeeds with a parseable JSON object (projected to the read fields). -/
inductive AgentLLM where
  | raised : AgentLLM
  | noMatch : String → AgentLLM
  | parsed : AgentResult → AgentLLM
deriving DecidableEq

/-- Decision record returned by DecisionAgent.aggregate. -/
structure Decision where
  color : String
  explanation : String
  auto_invest : ℚ
  score : ℚ
  agent_results : AgentResult × AgentResult × AgentResult
deriving DecidableEq

/-- A stored transaction; `decision` and `color` are added just before it
is persisted by analyze_purchase. -/
structure Txn where
  amount : ℚ
  category : String
  timestamp : String
  decision : Option Decision := none
  color : Option String := none
deriving DecidableEq

/-- User financial profile (data/user_profile.json). -/
structure UserProfile where
  monthly_income : ℚ
  current_savings : ℚ
  monthly_expenses : ℚ
  target_retirement_age : ℚ
  current_age : ℚ
  target_retirement_savings : ℚ
deriving DecidableEq

/-- Category budgets (data/budget.json): category name to monthly limit. -/
abbrev Budget : Type := List (String × ℚ)

/-- The three JSON documents of the flat-file store. `none` models a
missing file. -/
structure DataStoreState where
  transactions : List Txn
  profileFile : Option UserProfile
  budgetFile : Option Budget
deriving DecidableEq

/-- Year of an ISO timestamp string (first four characters). -/
def tsYear (ts : String) : ℕ := (strToNat? (strTake ts 4)).getD 0

namespace DataStore

/-- Default profile returned when data/user_profile.json is missing. -/
def defaultProfile : UserProfile :=
  { monthly_income := 5000
    current_savings := 10000
    monthly_expenses := 3000
    target_retirement_age := 65
    current_age := 30
    target_retirement_savings := 1000000 }

/-- Default budgets returned when data/budget.json is missing. -/
def defaultBudget : Budget :=
  [("food", 500), ("transportation", 300), ("entertainment", 200),
   ("shopping", 400), ("bills", 800), ("other", 300)]

/-- load_transactions: read the whole list (missing file gives []). -/
def load_transactions (s : DataStoreState) : List Txn × DataStoreState :=
  (s.transactions, s)

/-- save_transaction: load the list, append, write it back. -/
def save_transaction (t : Txn) (s : DataStoreState) : DataStoreState :=
  { s with transactions := s.transactions ++ [t] }

/-- load_user_profile: read the profile; a missing file yields the
hard-coded default and does not write anything. -/
def load_user_profile (s : DataStoreState) : UserProfile × DataStoreState :=
  (s.profileFile.getD defaultProfile, s)

/-- save_user_profile: overwrite the profile file wholesale. -/
def save_user_profile (p : UserProfile) (s : DataStoreState) : DataStoreState :=
  { s with profileFile := some p }

/-- load_budget: read the budgets; a missing file yields the hard-coded
default and does not write anything. -/
def load_budget (s : DataStoreState) : Budget × DataStoreState :=
  (s.budgetFile.getD defaultBudget, s)

/-- get_category_spending: sum amounts of transactions matching the
category (case-insensitively) in the given year. -/
def get_category_spending (txns : List Txn) (category : String) (year : ℕ) : ℚ :=
  txns.foldl
    (fun total t =>
      if strLower t.category = strLower category ∧ tsYear t.timestamp = year then
        total + t.amount
      else total) 0

end DataStore

namespace LongevityAgent

/-- savings_rate: (income - expenses) / income, or 0 on zero income. -/
def savingsRate (p : UserProfile) : ℚ :=
  if p.monthly_income > 0 then
    (p.monthly_income - p.monthly_expenses) / p.monthly_income
  else 0

/-- required_savings_rate derived from the retirement target. -/
def requiredSavingsRate (p : UserProfile) : ℚ :=
  let yearsToRetirement := p.target_retirement_age - p.current_age
  let requiredSavings := p.target_retirement_savings - p.current_savings
  let requiredMonthlySavings :=
    if yearsToRetirement > 0 then requiredSavings / (yearsToRetirement * 12) else 0
  if p.monthly_income > 0 then requiredMonthlySavings / p.monthly_income else 0

/-- The score used by both fallback paths of the longevity agent. -/
def fallbackScore (p : UserProfile) : ℚ :=
  if requiredSavingsRate p > 0 then min 1 (savingsRate p / requiredSavingsRate p)
  else 1/2

/-- LongevityAgent.analyze. The current transaction is only interpolated
into the prompt, which the oracle abstracts, so it is not a parameter. -/
def analyze (p : UserProfile) (o : AgentLLM) : AgentResult :=
  match o with
  | AgentLLM.parsed r => r
  | AgentLLM.noMatch text =>
      { status := some (if savingsRate p < requiredSavingsRate p then "BORDERLINE" else "OK")
        analysis := some (strTake text 200)
        score := some (fallbackScore p) }
  | AgentLLM.raised =>
      { status := some
          (if savingsRate p ≥ requiredSavingsRate p * (9/10) then "OK"
           else if savingsRate p ≥ requiredSavingsRate p * (7/10) then "BORDERLINE"
           else "RISKY")
        analysis := some ("Current savings rate " ++ ratStr (savingsRate p) ++
          " vs required " ++ ratStr (requiredSavingsRate p))
        score := some (fallbackScore p) }

end LongevityAgent

namespace BudgetAgent

/-- The category's monthly budget: budget.get(category.lower(),
budget.get('other', 300)). -/
def categoryBudgetOf (budget : Budget) (category : String) : ℚ :=
  ((budget : List (String × ℚ)).lookup (strLower category)).getD
    (((budget : List (String × ℚ)).lookup "other").getD 300)

/-- percentage_used: projected annual spending over the annual budget,
as a percentage; 0 when the annual budget is not positive. -/
def percentageUsed (s : DataStoreState) (currentYear : ℕ) (category : String)
    (amount : ℚ) : ℚ :=
  let budget := (DataStore.load_budget s).1
  let categoryBudget := categoryBudgetOf budget category
  let annualBudget := categoryBudget * 12
  let projectedSpending :=
    DataStore.get_category_spending s.transactions category currentYear + amount
  if annualBudget > 0 then projectedSpending / annualBudget * 100 else 0

/-- BudgetAgent.analyze. The no-match branch and the exception branch of
the source produce the identical record, so both oracle outcomes map to
the same fallback. -/
def analyze (s : DataStoreState) (currentYear : ℕ) (category : String)
    (amount : ℚ) (o : AgentLLM) : AgentResult :=
  let pct := percentageUsed s currentYear category amount
  match o with
  | AgentLLM.parsed r => r
  | _ =>
      { status := some
          (if pct ≤ 80 then "OK" else if pct ≤ 100 then "BORDERLINE" else "RISKY")
        analysis := some ("Using " ++ ratStr pct ++ "% of annual " ++ category ++ " budget")
        score := some (max 0 (1 - pct / 100)) }

end BudgetAgent

namespace AnomalyAgent

/-- The four statistics computed at the top of AnomalyAgent.analyze:
global average, global max, category average, category max. An empty
history makes all four equal the current amount; a nonempty history with
no transactions in the category copies the global statistics. -/
structure Stats where
  avgAmount : ℚ
  maxAmount : ℚ
  categoryAvg : ℚ
  categoryMax : ℚ
deriving DecidableEq

def stats (txns : List Txn) (category : String) (amount : ℚ) : Stats :=
  match txns with
  | [] => ⟨amount, amount, amount, amount⟩
  | t :: ts =>
    let amounts := (t :: ts).map Txn.amount
    let avgAmount := amounts.sum / (amounts.length : ℚ)
    let maxAmount := amounts.foldl max t.amount
    let categoryTxns :=
      (t :: ts).filter (fun x => strLower x.category == strLower category)
    match categoryTxns with
    | [] => ⟨avgAmount, maxAmount, avgAmount, maxAmount⟩
    | c :: cs =>
      let categoryAmounts := (c :: cs).map Txn.amount
      ⟨avgAmount, maxAmount,
        categoryAmounts.sum / (categoryAmounts.length : ℚ),
        categoryAmounts.foldl max c.amount⟩

/-- AnomalyAgent.analyze. The prompt f-string divides the amount by both
the category average and the category maximum before the try block, so a
zero value there raises an uncaught ZeroDivisionError (`Except.error`).
The no-match branch and the exception branch of the source produce the
identical record. -/
def analyze (txns : List Txn) (category : String) (amount : ℚ) (o : AgentLLM) :
    Except Unit AgentResult :=
  let st := stats txns category amount
  if st.categoryAvg = 0 ∨ st.categoryMax = 0 then Except.error () else
  match o with
  | AgentLLM.parsed r => Except.ok r
  | _ =>
      Except.ok
        { status := some
            (if amount > st.categoryMax * (3/2) then "RISKY"
             else if amount > st.categoryAvg * 3 then "BORDERLINE"
             else "OK")
          analysis := some ("This is " ++ ratStr (amount / st.categoryAvg) ++
            "x your average " ++ category ++ " purchase")
          score := some
            (if ¬ (amount > st.categoryAvg * 3) then 1
             else if ¬ (amount > st.categoryMax * (3/2)) then 1/2
             else 1/5) }

end AnomalyAgent

namespace DecisionAgent

/-- The weighted overall score (weights 0.4 / 0.35 / 0.25, defaulting a
missing score to 0.5). -/
def overallScoreOf (longevityResult budgetResult anomalyResult : AgentResult) : ℚ :=
  longevityResult.score.getD (1/2) * (2/5) +
  budgetResult.score.getD (1/2) * (7/20) +
  anomalyResult.score.getD (1/2) * (1/4)

/-- The three-band color of an overall score. -/
def colorOf (overallScore : ℚ) : String :=
  if overallScore ≥ 7/10 then "GREEN"
  else if overallScore ≥ 2/5 then "WHITE"
  else "RED"

/-- The auto-invest amount before its final rounding to 2 decimals:
round_up = max(1, round(amount) - amount) in every branch, plus 5% of
the amount for GREEN, nothing for WHITE, 10% for RED. -/
def autoInvestPre (color : String) (amount : ℚ) : ℚ :=
  if color = "GREEN" then
    max 1 ((pyRound amount : ℚ) - amount) + amount * (1/20)
  else if color = "WHITE" then
    max 1 ((pyRound amount : ℚ) - amount)
  else
    max 1 ((pyRound amount : ℚ) - amount) + amount * (1/10)

/-- DecisionAgent.aggregate. The explanation LLM call is modelled by
`o : Option String` (`some` = the returned text, `none` = the call
raised and the templated fallback string is used). -/
def aggregate (longevityResult budgetResult anomalyResult : AgentResult)
    (amount : ℚ) (o : Option String) : Decision :=
  let overallScore := overallScoreOf longevityResult budgetResult anomalyResult
  let color := colorOf overallScore
  let autoInvest := autoInvestPre color amount
  let explanation :=
    match o with
    | some text => text
    | none => "Based on your financial profile, this purchase is " ++ color ++
        ". Auto-invest $" ++ ratStr autoInvest ++ "."
  { color := color
    explanation := explanation
    auto_invest := pyRound2 autoInvest
    score := overallScore
    agent_results := (longevityResult, budgetResult, anomalyResult) }

end DecisionAgent

/-- The per-call LLM outcomes of one analyze_purchase run: one oracle
for each scoring agent and one for the explanation call. -/
structure Oracles where
  longevity : AgentLLM
  budget : AgentLLM
  anomaly : AgentLLM
  explanation : Option String
deriving DecidableEq

/-- All four external calls fail: the fully deterministic fallback run. -/
def failOracles : Oracles :=
  ⟨AgentLLM.raised, AgentLLM.raised, AgentLLM.raised, none⟩

/-- Result of MultiAgentSystem.analyze_purchase (steps trace omitted:
it is observational only and no claim mentions it). -/
structure AnalysisResult where
  transaction : Txn
  decision : Decision
deriving DecidableEq

namespace MultiAgentSystem

/-- MultiAgentSystem.analyze_purchase: run the three scoring agents in
sequence, aggregate, attach the decision to the transaction, persist it.
`now` is the ISO timestamp of datetime.now() and `currentYear` its year. -/
def analyze_purchase (s : DataStoreState) (now : String) (currentYear : ℕ)
    (amount : ℚ) (category : String) (o : Oracles) :
    Except Unit (AnalysisResult × DataStoreState) :=
  let transaction : Txn := { amount := amount, category := category, timestamp := now }
  let userProfile := (DataStore.load_user_profile s).1
  let longevityResult := LongevityAgent.analyze userProfile o.longevity
  let budgetResult := BudgetAgent.analyze s currentYear category amount o.budget
  match AnomalyAgent.analyze s.transactions category amount o.anomaly with
  | Except.error e => Except.error e
  | Except.ok anomalyResult =>
    let decision := DecisionAgent.aggregate longevityResult budgetResult
      anomalyResult amount o.explanation
    let transaction' :=
      { transaction with decision := some decision, color := some decision.color }
    Except.ok ({ transaction := transaction', decision := decision },
      DataStore.save_transaction transaction' s)

/-- Data returned by MultiAgentSystem.get_dashboard_data. -/
structure DashboardData where
  recent_transactions : List Txn
  category_spending : List (String × ℚ × ℚ)
  long_term_status : String
  user_profile : UserProfile
deriving DecidableEq

/-- MultiAgentSystem.get_dashboard_data: the 10 most recent transactions
(timestamp-descending, Python's stable sorted with reverse=True),
per-category annual budget and year-to-date spending, and the longevity
status recomputed on a zero-amount dummy transaction. -/
def get_dashboard_data (s : DataStoreState) (currentYear : ℕ) (o : AgentLLM) :
    DashboardData :=
  let transactions := (DataStore.load_transactions s).1
  let userProfile := (DataStore.load_user_profile s).1
  let budget := (DataStore.load_budget s).1
  let recent :=
    (transactions.mergeSort (fun a b => decide (b.timestamp ≤ a.timestamp))).take 10
  let categorySpending :=
    (budget : List (String × ℚ)).map (fun p =>
      (p.1, p.2 * 12, DataStore.get_category_spending transactions p.1 currentYear))
  let longevityResult := LongevityAgent.analyze userProfile o
  { recent_transactions := recent
    category_spending := categorySpending
    long_term_status := longevityResult.status.getD "BORDERLINE"
    user_profile := userProfile }

end MultiAgentSystem

/-- Modelled from the spec (§4.2 and glossary): the round-up is the
smallest amount that brings the purchase up to the next whole currency
unit, taken with the claimed minimum of one unit. -/
def specRoundUpMin1 (amount : ℚ) : ℚ := max 1 ((⌈amount⌉ : ℚ) - amount)

/-- Modelled from the spec (§4.2): the color-dependent surcharge, +5% of
the amount for GREEN, +0% for WHITE, +10% for RED. -/
def specSurcharge (color : String) (amount : ℚ) : ℚ :=
  if color = "GREEN" then amount * (1/20)
  else if color = "WHITE" then 0
  else amount * (1/10)

/-- Modelled from the spec (§4.2): the weighted sum with fixed weights
0.4, 0.35, 0.25 over the agents' scores (0.5 when missing). -/
def specWeightedScore (l b a : AgentResult) : ℚ :=
  (2/5) * l.score.getD (1/2) + (7/20) * b.score.getD (1/2) +
    (1/4) * a.score.getD (1/2)

/-- Modelled from the spec (§4.2): the color bands of the overall score. -/
def specColorBand (s : ℚ) : String :=
  if s ≥ 7/10 then "GREEN"
  else if s ≥ 2/5 then "WHITE"
  else "RED"

/-- A well-formed agent result in the sense of the spec's §4.1 contract:
a status from the three-valued set, an analysis text, a numeric score. -/
def wellFormed (r : AgentResult) : Prop :=
  r.status ∈ [some "OK", some "BORDERLINE", some "RISKY"] ∧
  r.analysis.isSome = true ∧ r.score.isSome = true

instance (r : AgentResult) : Decidable (wellFormed r) :=
  inferInstanceAs (Decidable (_ ∧ _ ∧ _))

/-- A complete agent result with a given score, for concrete runs. -/
def okResult (s : ℚ) : AgentResult :=
  { status := some "OK", analysis := some "", score := some s }

/-- A profile whose expenses far exceed its income (negative savings rate). -/
def badProfile : UserProfile :=
  { monthly_income := 10, current_savings := 0, monthly_expenses := 10000,
    target_retirement_age := 65, current_age := 30,
    target_retirement_savings := 1000000 }

/-- A single stored food transaction of $100. -/
def txnFood100 : Txn :=
  { amount := 100, category := "food", timestamp := "2025-01-01T00:00:00" }

/-- A single stored shopping transaction of $100. -/
def txnShopping : Txn :=
  { amount := 100, category := "shopping", timestamp := "2025-01-02T00:00:00" }

attribute [local semireducible] Rat.add Rat.mul Rat.sub Rat.inv

set_option maxRecDepth 8000

theorem pyRound_sub_bounds (x : ℚ) :
    -(1/2) ≤ (pyRound x : ℚ) - x ∧ (pyRound x : ℚ) - x ≤ 1/2 := by
  have hfl : (⌊x⌋ : ℚ) ≤ x := Int.floor_le x
  have hfu : x < ⌊x⌋ + 1 := Int.lt_floor_add_one x
  unfold pyRound
  split_ifs with h1 h2 h3
  · constructor <;> linarith
  · constructor <;> push_cast <;> linarith
  · have he : x - ⌊x⌋ = 1/2 := le_antisymm (not_lt.mp h2) (not_lt.mp h1)
    constructor <;> linarith
  · have he : x - ⌊x⌋ = 1/2 := le_antisymm (not_lt.mp h2) (not_lt.mp h1)
    constructor <;> push_cast <;> linarith

theorem max_one_pyRound (x : ℚ) : max 1 ((pyRound x : ℚ) - x) = 1 :=
  max_eq_left (le_trans (pyRound_sub_bounds x).2 (by norm_num))

theorem specRoundUpMin1_eq_one (x : ℚ) : specRoundUpMin1 x = 1 := by
  unfold specRoundUpMin1
  apply max_eq_left
  have h := Int.ceil_lt_add_one x
  have h' : ((⌈x⌉ : ℤ) : ℚ) < x + 1 := by exact_mod_cast h
  linarith

theorem aggregate_score_def (l b a : AgentResult) (amount : ℚ) (o : Option String) :
    (DecisionAgent.aggregate l b a amount o).score =
      DecisionAgent.overallScoreOf l b a := rfl

theorem aggregate_color_def (l b a : AgentResult) (amount : ℚ) (o : Option String) :
    (DecisionAgent.aggregate l b a amount o).color =
      DecisionAgent.colorOf (DecisionAgent.overallScoreOf l b a) := rfl

theorem aggregate_auto_invest_def (l b a : AgentResult) (amount : ℚ) (o : Option String) :
    (DecisionAgent.aggregate l b a amount o).auto_invest =
      pyRound2 (DecisionAgent.autoInvestPre
        (DecisionAgent.colorOf (DecisionAgent.overallScoreOf l b a)) amount) := rfl

theorem colorOf_mem (s : ℚ) :
    DecisionAgent.colorOf s ∈ (["GREEN", "WHITE", "RED"] : List String) := by
  unfold DecisionAgent.colorOf
  split_ifs <;> simp

/-- Claim C2: DecisionAgent.aggregate computes the overall score as the
weighted sum 0.4 × longevity + 0.35 × budget + 0.25 × anomaly (0.5 for a
missing score) and maps it to GREEN at ≥ 0.7, WHITE at ≥ 0.4, RED below. -/
theorem aggregate_score_weights_and_color_bands
    (l b a : AgentResult) (amount : ℚ) (o : Option String) :
    (DecisionAgent.aggregate l b a amount o).score = specWeightedScore l b a ∧
    (DecisionAgent.aggregate l b a amount o).color =
      specColorBand ((DecisionAgent.aggregate l b a amount o).score) := by
  constructor
  · rw [aggregate_score_def]
    unfold DecisionAgent.overallScoreOf specWeightedScore
    ring
  · rw [aggregate_color_def, aggregate_score_def]
    rfl

/-- Claim C5: the round_up component of DecisionAgent.aggregate is always
exactly 1, because round(amount) − amount lies in [−0.5, 0.5] and is then
maxed with 1; so the auto-invest amount before the final 2-decimal
rounding is 1 for WHITE, 1 + 0.05·amount for GREEN, 1 + 0.10·amount for
RED. -/
theorem round_up_component_always_one
    (l b a : AgentResult) (amount : ℚ) (o : Option String) :
    -(1/2) ≤ (pyRound amount : ℚ) - amount ∧
    (pyRound amount : ℚ) - amount ≤ 1/2 ∧
    max 1 ((pyRound amount : ℚ) - amount) = 1 ∧
    DecisionAgent.autoInvestPre "WHITE" amount = 1 ∧
    DecisionAgent.autoInvestPre "GREEN" amount = 1 + amount * (1/20) ∧
    DecisionAgent.autoInvestPre "RED" amount = 1 + amount * (1/10) ∧
    (DecisionAgent.aggregate l b a amount o).auto_invest =
      pyRound2 (DecisionAgent.autoInvestPre
        ((DecisionAgent.aggregate l b a amount o).color) amount) := by
  have h1 := max_one_pyRound amount
  refine ⟨(pyRound_sub_bounds amount).1, (pyRound_sub_bounds amount).2, h1, ?_, ?_, ?_, rfl⟩
  · unfold DecisionAgent.autoInvestPre
    simp only [String.reduceEq, if_false, if_true, reduceIte]
    exact h1
  · unfold DecisionAgent.autoInvestPre
    simp only [String.reduceEq, if_false, if_true, reduceIte]
    rw [h1]
  · unfold DecisionAgent.autoInvestPre
    simp only [String.reduceEq, if_false, if_true, reduceIte]
    rw [h1]

/-- Claim C8: the explanation LLM call has no effect on the numeric
decision: color, score and auto_invest of the aggregate are the same for
any two outcomes of the call, and on failure only the explanation holds
the templated fallback string. -/
theorem explanation_call_noninterference
    (l b a : AgentResult) (amount : ℚ) (o o' : Option String) :
    (DecisionAgent.aggregate l b a amount o).color =
      (DecisionAgent.aggregate l b a amount o').color ∧
    (DecisionAgent.aggregate l b a amount o).score =
      (DecisionAgent.aggregate l b a amount o').score ∧
    (DecisionAgent.aggregate l b a amount o).auto_invest =
      (DecisionAgent.aggregate l b a amount o').auto_invest ∧
    (DecisionAgent.aggregate l b a amount o).agent_results =
      (DecisionAgent.aggregate l b a amount o').agent_results ∧
    (∀ text, (DecisionAgent.aggregate l b a amount (some text)).explanation = text) ∧
    (DecisionAgent.aggregate l b a amount none).explanation =
      "Based on your financial profile, this purchase is " ++
        (DecisionAgent.aggregate l b a amount none).color ++
        ". Auto-invest $" ++
        ratStr (DecisionAgent.autoInvestPre
          ((DecisionAgent.aggregate l b a amount none).color) amount) ++ "." :=
  ⟨rfl, rfl, rfl, rfl, fun _ => rfl, rfl⟩

/-- Claim C10: loading a missing profile (resp. budget) file always
returns the hard-coded default and leaves the store unchanged; the
default is only persisted by an explicit save. -/
theorem load_missing_defaults_no_write (s : DataStoreState) :
    (s.profileFile = none →
      DataStore.load_user_profile s = (DataStore.defaultProfile, s)) ∧
    (s.budgetFile = none →
      DataStore.load_budget s = (DataStore.defaultBudget, s)) ∧
    (∀ p, (DataStore.save_user_profile p s).profileFile = some p) := by
  refine ⟨fun h => ?_, fun h => ?_, fun p => rfl⟩
  · unfold DataStore.load_user_profile
    rw [h]
    rfl
  · unfold DataStore.load_budget
    rw [h]
    rfl

/-- Witness for C10 at the empty store with both files missing. -/
theorem load_missing_defaults_witness :
    DataStore.load_user_profile ⟨[], none, none⟩ =
      (DataStore.defaultProfile, ⟨[], none, none⟩) ∧
    DataStore.load_budget ⟨[], none, none⟩ =
      (DataStore.defaultBudget, ⟨[], none, none⟩) :=
  ⟨(load_missing_defaults_no_write ⟨[], none, none⟩).1 rfl,
   (load_missing_defaults_no_write ⟨[], none, none⟩).2.1 rfl⟩

/-- Counterexample for claim C1: at amount 19.40 with a GREEN decision the
code computes auto_invest = 1.97, not the claimed 1.57 (the round-up
component is 1, not 0.60, since round(19.40) − 19.40 = −0.40 is maxed
with 1). -/
theorem aggregate_roundup_example_ne_claim :
    (DecisionAgent.aggregate (okResult (4/5)) (okResult (4/5)) (okResult (4/5))
        (97/5) none).color = "GREEN" ∧
    (DecisionAgent.aggregate (okResult (4/5)) (okResult (4/5)) (okResult (4/5))
        (97/5) none).auto_invest = 197/100 ∧
    ¬ (DecisionAgent.aggregate (okResult (4/5)) (okResult (4/5)) (okResult (4/5))
        (97/5) none).auto_invest = 157/100 :=
  ⟨by decide, by decide, by decide⟩

/-- Claim C1 (amended): for every positive amount, auto_invest is the
2-decimal rounding of the round-up-to-the-next-whole-unit of the amount
taken with minimum 1 unit (which therefore always equals 1) plus the
color surcharge (+5% GREEN, +0% WHITE, +10% RED); at amount 19.40 with
GREEN this gives round-up 1 and auto_invest 1.97, not 0.60 and 1.57. -/
theorem aggregate_auto_invest_eq_spec_roundup_plus_surcharge
    (l b a : AgentResult) (amount : ℚ) (o : Option String) (_hpos : 0 < amount) :
    specRoundUpMin1 amount = 1 ∧
    (DecisionAgent.aggregate l b a amount o).auto_invest =
      pyRound2 (specRoundUpMin1 amount +
        specSurcharge ((DecisionAgent.aggregate l b a amount o).color) amount) := by
  have h1 := max_one_pyRound amount
  have h2 := specRoundUpMin1_eq_one amount
  refine ⟨h2, ?_⟩
  rw [aggregate_auto_invest_def, aggregate_color_def, h2]
  congr 1
  generalize DecisionAgent.colorOf (DecisionAgent.overallScoreOf l b a) = c
  unfold DecisionAgent.autoInvestPre specSurcharge
  split_ifs <;> (rw [h1]; try ring)

/-- Witness for the amended C1 at amount 19.40 with a GREEN decision. -/
theorem aggregate_auto_invest_spec_witness :
    (0:ℚ) < 97/5 ∧
    specRoundUpMin1 (97/5) = 1 ∧
    (DecisionAgent.aggregate (okResult (9/10)) (okResult (9/10)) (okResult (9/10))
        (97/5) none).auto_invest =
      pyRound2 (specRoundUpMin1 (97/5) +
        specSurcharge ((DecisionAgent.aggregate (okResult (9/10)) (okResult (9/10))
          (okResult (9/10)) (97/5) none).color) (97/5)) :=
  ⟨by norm_num,
   (aggregate_auto_invest_eq_spec_roundup_plus_surcharge (okResult (9/10))
     (okResult (9/10)) (okResult (9/10)) (97/5) none (by norm_num)).1,
   (aggregate_auto_invest_eq_spec_roundup_plus_surcharge (okResult (9/10))
     (okResult (9/10)) (okResult (9/10)) (97/5) none (by norm_num)).2⟩

/-- Claim C6: the budget agent's fallback status is OK when the projected
annual usage percentage is at most 80, BORDERLINE when at most 100, and
RISKY above, with the percentage equal to (prior spend this year +
amount) over 12 times the monthly category budget, times 100. -/
theorem budget_fallback_threshold_statuses (s : DataStoreState) (year : ℕ)
    (category : String) (amount : ℚ)
    (hpos : 0 < BudgetAgent.categoryBudgetOf ((DataStore.load_budget s).1) category * 12) :
    (BudgetAgent.analyze s year category amount AgentLLM.raised).status =
      some (if (DataStore.get_category_spending s.transactions category year + amount) /
              (12 * BudgetAgent.categoryBudgetOf ((DataStore.load_budget s).1) category)
              * 100 ≤ 80 then "OK"
            else if (DataStore.get_category_spending s.transactions category year + amount) /
              (12 * BudgetAgent.categoryBudgetOf ((DataStore.load_budget s).1) category)
              * 100 ≤ 100 then "BORDERLINE"
            else "RISKY") := by
  have hpct : BudgetAgent.percentageUsed s year category amount =
      (DataStore.get_category_spending s.transactions category year + amount) /
        (12 * BudgetAgent.categoryBudgetOf ((DataStore.load_budget s).1) category) * 100 := by
    unfold BudgetAgent.percentageUsed
    rw [if_pos hpos]
    ring
  show some (if BudgetAgent.percentageUsed s year category amount ≤ 80 then "OK"
      else if BudgetAgent.percentageUsed s year category amount ≤ 100 then "BORDERLINE"
      else "RISKY") = _
  rw [hpct]

/-- Witness for C6: the spec scenario with the default $500/month food
budget, no prior spend, and a $6001 purchase yields status RISKY. -/
theorem budget_fallback_risky_witness :
    (0:ℚ) < BudgetAgent.categoryBudgetOf ((DataStore.load_budget ⟨[], none, none⟩).1)
        "food" * 12 ∧
    (BudgetAgent.analyze ⟨[], none, none⟩ 2025 "food" 6001 AgentLLM.raised).status =
      some "RISKY" := by
  refine ⟨by decide, ?_⟩
  rw [budget_fallback_threshold_statuses ⟨[], none, none⟩ 2025 "food" 6001 (by decide)]
  decide

theorem anomaly_stats_nil (category : String) (amount : ℚ) :
    AnomalyAgent.stats [] category amount = ⟨amount, amount, amount, amount⟩ := rfl

/-- Counterexample for claim C7: with one stored $100 food transaction and
a $400 entertainment purchase there are no prior transactions in the
category, yet the fallback category average is the global 100, not the
new amount 400, and the fallback status is RISKY, not OK. -/
theorem anomaly_category_missing_counterexample :
    (AnomalyAgent.stats [txnFood100] "entertainment" 400).categoryAvg = 100 ∧
    ¬ (AnomalyAgent.stats [txnFood100] "entertainment" 400).categoryAvg = 400 ∧
    (AnomalyAgent.analyze [txnFood100] "entertainment" 400 AgentLLM.raised).toOption.map
      AgentResult.status = some (some "RISKY") :=
  ⟨by decide, by decide, by decide⟩

/-- Claim C7 (amended): when the transaction history is empty the fallback
category statistics equal the new transaction's amount and, for a positive
amount, is_large and is_very_large are false and the fallback status is
OK; when the history is nonempty but the category has no prior
transactions, the category statistics instead equal the global average and
maximum. -/
theorem anomaly_stats_empty_and_global_fallback (category : String) (amount : ℚ)
    (hpos : 0 < amount) :
    AnomalyAgent.stats [] category amount = ⟨amount, amount, amount, amount⟩ ∧
    ¬ (amount > amount * 3) ∧ ¬ (amount > amount * (3/2)) ∧
    (AnomalyAgent.analyze [] category amount AgentLLM.raised).toOption.map
      AgentResult.status = some (some "OK") ∧
    (∀ t ts, (t :: ts).filter (fun x => strLower x.category == strLower category) = [] →
      (AnomalyAgent.stats (t :: ts) category amount).categoryAvg =
        (AnomalyAgent.stats (t :: ts) category amount).avgAmount ∧
      (AnomalyAgent.stats (t :: ts) category amount).categoryMax =
        (AnomalyAgent.stats (t :: ts) category amount).maxAmount) := by
  have hnl : ¬ (amount > amount * 3) := by linarith
  have hnv : ¬ (amount > amount * (3/2)) := by linarith
  refine ⟨rfl, hnl, hnv, ?_, ?_⟩
  · unfold AnomalyAgent.analyze
    rw [anomaly_stats_nil]
    rw [if_neg (by simp; exact ne_of_gt hpos)]
    simp only [Except.toOption, Option.map]
    rw [if_neg hnv, if_neg hnl]
  · intro t ts h
    simp only [AnomalyAgent.stats, h]
    exact ⟨trivial, trivial⟩

/-- Witness for the amended C7: an empty history with a $50 food purchase,
and a history holding only a shopping transaction while food is queried. -/
theorem anomaly_stats_witness :
    (0:ℚ) < 50 ∧
    AnomalyAgent.stats [] "food" 50 = ⟨50, 50, 50, 50⟩ ∧
    (AnomalyAgent.analyze [] "food" 50 AgentLLM.raised).toOption.map
      AgentResult.status = some (some "OK") ∧
    (AnomalyAgent.stats [txnShopping] "food" 50).categoryAvg =
      (AnomalyAgent.stats [txnShopping] "food" 50).avgAmount := by
  have h := anomaly_stats_empty_and_global_fallback "food" 50 (by norm_num)
  exact ⟨by norm_num, h.1, h.2.2.2.1, (h.2.2.2.2 txnShopping [] (by decide)).1⟩

/-- Counterexample for claim C4: on a zero amount with an empty history the
anomaly agent's category average is zero, so building the prompt raises an
uncaught ZeroDivisionError instead of returning an AgentResult. -/
theorem anomaly_analyze_raises_on_zero_avg :
    AnomalyAgent.analyze [] "food" 0 AgentLLM.raised = Except.error () := rfl

/-- Claim C4 (amended): whenever a scoring agent's LLM call raises or its
response contains no parseable JSON object, the agent returns the
deterministic arithmetic fallback computed from the same inputs, which is
a well-formed AgentResult (status among OK/BORDERLINE/RISKY, an analysis
text, a numeric score); however the anomaly agent raises an uncaught
ZeroDivisionError while interpolating its prompt when the category
average or maximum is zero, and a successfully parsed LLM response is
returned as-is without validation. -/
theorem agents_fallback_well_formed (p : UserProfile) (s : DataStoreState)
    (year : ℕ) (category : String) (amount : ℚ) (text : String) (txns : List Txn) :
    wellFormed (LongevityAgent.analyze p AgentLLM.raised) ∧
    wellFormed (LongevityAgent.analyze p (AgentLLM.noMatch text)) ∧
    wellFormed (BudgetAgent.analyze s year category amount AgentLLM.raised) ∧
    BudgetAgent.analyze s year category amount (AgentLLM.noMatch text) =
      BudgetAgent.analyze s year category amount AgentLLM.raised ∧
    (∀ r, AnomalyAgent.analyze txns category amount AgentLLM.raised = Except.ok r →
      wellFormed r) ∧
    AnomalyAgent.analyze txns category amount (AgentLLM.noMatch text) =
      AnomalyAgent.analyze txns category amount AgentLLM.raised := by
  refine ⟨?_, ?_, ?_, rfl, ?_, rfl⟩
  · unfold LongevityAgent.analyze wellFormed
    refine ⟨?_, rfl, rfl⟩
    split_ifs <;> simp
  · unfold LongevityAgent.analyze wellFormed
    refine ⟨?_, rfl, rfl⟩
    split_ifs <;> simp
  · unfold BudgetAgent.analyze wellFormed
    dsimp only
    refine ⟨?_, rfl, rfl⟩
    split_ifs <;> simp
  · intro r hr
    unfold AnomalyAgent.analyze at hr
    dsimp only at hr
    split at hr
    · exact absurd hr (by simp)
    · rw [Except.ok.injEq] at hr
      subst hr
      unfold wellFormed
      refine ⟨?_, rfl, rfl⟩
      split_ifs <;> simp

/-- Witness for the amended C4: the default profile and a store holding a
single $100 food transaction, with a $50 food purchase. -/
theorem agents_fallback_well_formed_witness :
    wellFormed (LongevityAgent.analyze DataStore.defaultProfile AgentLLM.raised) ∧
    wellFormed { status := some "OK",
                 analysis := some ("This is " ++ ratStr (50/100) ++
                   "x your average food purchase"),
                 score := some 1 } := by
  have h := agents_fallback_well_formed DataStore.defaultProfile ⟨[], none, none⟩
    2025 "food" 50 "no json here" [txnFood100]
  exact ⟨h.1, h.2.2.2.2.1 _ rfl⟩

theorem spend_foldl_nonneg (category : String) (year : ℕ) (txns : List Txn) :
    ∀ acc : ℚ, (∀ t ∈ txns, 0 ≤ t.amount) → 0 ≤ acc →
      0 ≤ txns.foldl (fun total t =>
        if strLower t.category = strLower category ∧ tsYear t.timestamp = year then
          total + t.amount else total) acc := by
  induction txns with
  | nil =>
    intro acc _ hacc
    simpa using hacc
  | cons t ts ih =>
    intro acc h hacc
    simp only [List.foldl_cons]
    apply ih
    · exact fun x hx => h x (List.mem_cons_of_mem _ hx)
    · split_ifs
      · have := h t (List.mem_cons_self t ts)
        linarith
      · exact hacc

theorem get_category_spending_nonneg (txns : List Txn) (category : String) (year : ℕ)
    (h : ∀ t ∈ txns, 0 ≤ t.amount) :
    0 ≤ DataStore.get_category_spending txns category year :=
  spend_foldl_nonneg category year txns 0 h le_rfl

theorem fallbackScore_bounds (p : UserProfile) (h : 0 ≤ LongevityAgent.savingsRate p) :
    0 ≤ LongevityAgent.fallbackScore p ∧ LongevityAgent.fallbackScore p ≤ 1 := by
  unfold LongevityAgent.fallbackScore
  split_ifs with hrr
  · exact ⟨le_min (by norm_num) (div_nonneg h (le_of_lt hrr)), min_le_left _ _⟩
  · norm_num

theorem percentageUsed_nonneg (s : DataStoreState) (year : ℕ) (category : String)
    (amount : ℚ) (hamt : 0 ≤ amount) (htx : ∀ t ∈ s.transactions, 0 ≤ t.amount) :
    0 ≤ BudgetAgent.percentageUsed s year category amount := by
  unfold BudgetAgent.percentageUsed
  dsimp only
  split_ifs with h
  · have hy := get_category_spending_nonneg s.transactions category year htx
    have h1 : 0 ≤ DataStore.get_category_spending s.transactions category year + amount := by
      linarith
    have h2 := div_nonneg h1 (le_of_lt h)
    linarith
  · exact le_rfl

theorem budget_score_bounds (s : DataStoreState) (year : ℕ) (category : String)
    (amount : ℚ) (hamt : 0 ≤ amount) (htx : ∀ t ∈ s.transactions, 0 ≤ t.amount) :
    0 ≤ max 0 (1 - BudgetAgent.percentageUsed s year category amount / 100) ∧
    max 0 (1 - BudgetAgent.percentageUsed s year category amount / 100) ≤ 1 := by
  have hp := percentageUsed_nonneg s year category amount hamt htx
  refine ⟨le_max_left _ _, max_le (by norm_num) ?_⟩
  have h2 := div_nonneg hp (by norm_num : (0:ℚ) ≤ 100)
  linarith

theorem longevity_raised_score (p : UserProfile) :
    (LongevityAgent.analyze p AgentLLM.raised).score =
      some (LongevityAgent.fallbackScore p) := rfl

theorem budget_raised_score (s : DataStoreState) (year : ℕ) (category : String)
    (amount : ℚ) :
    (BudgetAgent.analyze s year category amount AgentLLM.raised).score =
      some (max 0 (1 - BudgetAgent.percentageUsed s year category amount / 100)) := rfl

theorem anomaly_ok_score (txns : List Txn) (category : String) (amount : ℚ)
    (r : AgentResult)
    (h : AnomalyAgent.analyze txns category amount AgentLLM.raised = Except.ok r) :
    r.score = some 1 ∨ r.score = some (1/2) ∨ r.score = some (1/5) := by
  unfold AnomalyAgent.analyze at h
  dsimp only at h
  split at h
  · exact absurd h (by simp)
  · rw [Except.ok.injEq] at h
    subst h
    dsimp only
    split_ifs <;> simp

/-- Counterexample for claim C3: with a stored profile whose expenses far
exceed its income, the all-fallback run on a positive amount returns a
decision score of −324371/300000, which is below 0. -/
theorem analyze_purchase_score_below_zero :
    ((MultiAgentSystem.analyze_purchase ⟨[], some badProfile, none⟩
        "2025-06-01T00:00:00" 2025 50 "food" failOracles).toOption.map
      (fun r => r.1.decision.score)) = some (-324371/300000) ∧
    ¬ (0:ℚ) ≤ -324371/300000 :=
  ⟨by decide, by norm_num⟩

/-- Claim C3 (amended): whenever analyze_purchase returns a result its
decision color is one of GREEN, WHITE, RED (for any LLM outcomes); and
when the three scoring calls all fail (deterministic fallback path), the
stored transaction amounts are nonnegative, and the stored profile's
savings rate is nonnegative, the decision score lies in [0, 1]. -/
theorem analyze_purchase_color_valid_and_score_bounds
    (s : DataStoreState) (now : String) (year : ℕ) (amount : ℚ) (category : String)
    (o : Oracles) (res : AnalysisResult) (s' : DataStoreState)
    (hpos : 0 < amount)
    (hrun : MultiAgentSystem.analyze_purchase s now year amount category o =
      Except.ok (res, s')) :
    res.decision.color ∈ (["GREEN", "WHITE", "RED"] : List String) ∧
    (o.longevity = AgentLLM.raised → o.budget = AgentLLM.raised →
      o.anomaly = AgentLLM.raised →
      (∀ t ∈ s.transactions, 0 ≤ t.amount) →
      0 ≤ LongevityAgent.savingsRate ((DataStore.load_user_profile s).1) →
      0 ≤ res.decision.score ∧ res.decision.score ≤ 1) := by
  obtain ⟨ol, ob, oa, oe⟩ := o
  unfold MultiAgentSystem.analyze_purchase at hrun
  dsimp only at hrun
  cases ha : AnomalyAgent.analyze s.transactions category amount oa with
  | error e =>
    rw [ha] at hrun
    exact absurd hrun (by simp)
  | ok ar =>
    rw [ha] at hrun
    dsimp only at hrun
    rw [Except.ok.injEq, Prod.mk.injEq] at hrun
    obtain ⟨hres, hs2⟩ := hrun
    subst hres
    constructor
    · exact colorOf_mem _
    · intro hl hb han htx hsr
      dsimp only at hl hb han
      subst hl
      subst hb
      subst han
      have hL := fallbackScore_bounds ((DataStore.load_user_profile s).1) hsr
      have hB := budget_score_bounds s year category amount (le_of_lt hpos) htx
      have hA := anomaly_ok_score s.transactions category amount ar ha
      show 0 ≤ DecisionAgent.overallScoreOf
          (LongevityAgent.analyze ((DataStore.load_user_profile s).1) AgentLLM.raised)
          (BudgetAgent.analyze s year category amount AgentLLM.raised) ar ∧
        DecisionAgent.overallScoreOf
          (LongevityAgent.analyze ((DataStore.load_user_profile s).1) AgentLLM.raised)
          (BudgetAgent.analyze s year category amount AgentLLM.raised) ar ≤ 1
      unfold DecisionAgent.overallScoreOf
      rw [longevity_raised_score, budget_raised_score]
      simp only [Option.getD_some]
      rcases hA with h | h | h <;>
        rw [h] <;> simp only [Option.getD_some] <;>
        constructor <;> linarith [hL.1, hL.2, hB.1, hB.2]

/-- Witness for the amended C3: the all-fallback run on the empty store
with the default profile and a $50 food purchase; the decision there is
GREEN with score 8241/8800 ∈ [0, 1]. -/
theorem analyze_purchase_color_score_witness :
    ((MultiAgentSystem.analyze_purchase ⟨[], none, none⟩ "2025-06-01T00:00:00" 2025
        50 "food" failOracles).toOption.map
      (fun r => decide (r.1.decision.color ∈ (["GREEN", "WHITE", "RED"] : List String) ∧
        0 ≤ r.1.decision.score ∧ r.1.decision.score ≤ 1))) = some true := by
  cases hrun : MultiAgentSystem.analyze_purchase ⟨[], none, none⟩ "2025-06-01T00:00:00"
      2025 50 "food" failOracles with
  | error e =>
    have hne : (MultiAgentSystem.analyze_purchase ⟨[], none, none⟩ "2025-06-01T00:00:00"
        2025 50 "food" failOracles).toOption.isSome = true := by decide
    rw [hrun] at hne
    exact absurd hne (by simp [Except.toOption])
  | ok pr =>
    obtain ⟨res, s2⟩ := pr
    have hc := analyze_purchase_color_valid_and_score_bounds ⟨[], none, none⟩
      "2025-06-01T00:00:00" 2025 50 "food" failOracles res s2 (by norm_num) hrun
    have hsc := hc.2 rfl rfl rfl
      (fun t ht => absurd ht (List.not_mem_nil t)) (by decide)
    simp only [Except.toOption, Option.map]
    exact congrArg some (decide_eq_true ⟨hc.1, hsc⟩)

/-- Claim C9: for every store state, the dashboard's recent_transactions
list is sorted by timestamp in descending order and holds at most 10
entries, regardless of how many transactions exist. -/
theorem dashboard_recent_sorted_and_truncated (s : DataStoreState) (year : ℕ)
    (o : AgentLLM) :
    ((MultiAgentSystem.get_dashboard_data s year o).recent_transactions).Pairwise
      (fun a b => b.timestamp ≤ a.timestamp) ∧
    (MultiAgentSystem.get_dashboard_data s year o).recent_transactions.length ≤ 10 := by
  have hs : (s.transactions.mergeSort
      (fun a b => decide (b.timestamp ≤ a.timestamp))).Pairwise
      (fun a b => decide (b.timestamp ≤ a.timestamp) = true) := by
    apply List.sorted_mergeSort
    · intro a b c hab hbc
      simp only [decide_eq_true_eq] at hab hbc ⊢
      exact le_trans hbc hab
    · intro a b
      simp only [Bool.or_eq_true, decide_eq_true_eq]
      exact le_total b.timestamp a.timestamp
  have ht : (MultiAgentSystem.get_dashboard_data s year o).recent_transactions =
      (s.transactions.mergeSort (fun a b => decide (b.timestamp ≤ a.timestamp))).take 10 :=
    rfl
  constructor
  · rw [ht]
    have hp := List.Pairwise.sublist (List.take_sublist 10 _) hs
    exact hp.imp (fun h => of_decide_eq_true h)
  · rw [ht]
    have := List.length_take 10
      (s.transactions.mergeSort (fun a b => decide (b.timestamp ≤ a.timestamp)))
    omega
